import Mathlib

/-!
# Verification of the lpm-validation discovery → matching → extraction pipeline

Shallow embedding of the core logic of the `lpm_validation` package:

* `src/lpm_validation/metadata_extractor.py` — morph-parameter scanning,
* `src/lpm_validation/results_extractor.py` — coefficient formula and the
  force-series windowed averaging,
* `src/lpm_validation/results_matcher.py` and
  `src/lpm_validation/simulation_record.py` — results-folder matching, record
  state, status derivation, and the dynamic `set_results` merge.

Modelling conventions:

* Python floats are modelled as exact rationals (`ℚ`); every property below is
  about the formulas and about which fields are produced, not about rounding.
* `np.std` is a square root of the population variance; the square root of a
  rational is irrational in general, so the embedding carries the radicand
  (`popVariance`).  No claim depends on the magnitude of a standard deviation,
  only on whether the field is present.
* A CSV cell (a string handed to Python's `float`) is modelled by `Cell`:
  either numeric-parseable with an exact value, or non-numeric text on which
  `float` raises.
* Python dicts whose keys are data (CSV rows, parameter mappings, attribute
  tables) are modelled as association lists in stored iteration order, with
  `List.lookup` as `dict.get` / `in`.
-/

set_option autoImplicit false

namespace LpmValidation

/-- A CSV cell as handed to Python's `float(...)`: either numeric-parseable
with exact value `q`, or non-numeric text (on which `float` raises
`ValueError`). -/
inductive Cell where
  | num (q : ℚ)
  | text
deriving DecidableEq

/-- One row of the force-series table: a `csv.DictReader` row, i.e. an
association list from column name to cell, in column order. -/
abbrev Row := List (String × Cell)

/-- Python's `str.split(sep)` for a one-character separator, on the character
list: splits at every occurrence, keeping empty pieces, and yields `[[]]` on
the empty input — exactly `"".split('/') == ['']`. -/
def splitOnChar (c : Char) : List Char → List (List Char)
  | [] => [[]]
  | x :: xs =>
    match splitOnChar c xs with
    | [] => [[]]
    | g :: gs => if x = c then [] :: g :: gs else (x :: g) :: gs

/-- Python's `str.rstrip('/')` on the character list. -/
def rstripSlash (l : List Char) : List Char :=
  (l.reverse.dropWhile (· = '/')).reverse

/-- `S3DataSource.extract_folder_name` (s3_data_source.py:270):
`s3_path.rstrip('/').split('/')[-1]`, carried out on the character list so
that the function evaluates by structural recursion. -/
def extract_folder_name (s3_path : String) : String :=
  String.mk ((splitOnChar '/' (rstripSlash s3_path.toList)).getLastD [])

/-- `MetadataExtractor._extract_morph_info` (metadata_extractor.py:107):
scan `morph_parameters` in stored iteration order and return the first
parameter whose value is `!= 0.0`; `(None, 0.0)` when none is. -/
def extract_morph_info : List (String × ℚ) → Option String × ℚ
  | [] => (none, 0)
  | (param_name, param_value) :: rest =>
    if param_value ≠ 0 then (some param_name, param_value)
    else extract_morph_info rest

/-- `ResultsExtractor.calculate_coefficients` (results_extractor.py:213):
`C = 2·F/(ρ·v²·A)` for drag and lift, `(None, None)` when the dynamic
pressure term is exactly zero. -/
def calculate_coefficients (drag_n lift_n density velocity area : ℚ) :
    Option ℚ × Option ℚ :=
  let dynamic_pressure_area := density * velocity ^ 2 * area
  if dynamic_pressure_area = 0 then (none, none)
  else (some (2 * drag_n / dynamic_pressure_area),
        some (2 * lift_n / dynamic_pressure_area))

/-! ## Force-series extraction (`ResultsExtractor.extract_from_force_series`) -/

/-- `ResultsExtractor._extract_value` (results_extractor.py:197): the value of
the first key of `possible_keys` that is present in the row, else `None`. -/
def extract_value (row : Row) : List String → Option Cell
  | [] => none
  | key :: rest =>
    match List.lookup key row with
    | some v => some v
    | none => extract_value row rest

/-- Column-name candidates for the Cd monitor (results_extractor.py:142). -/
def cd_keys : List String := ["Cd Monitor: Cd Monitor", "Cd", "cd"]

/-- Column-name candidates for the Cl monitor (results_extractor.py:143). -/
def cl_keys : List String := ["Cl Monitor: Cl Monitor", "Cl", "cl"]

/-- Column-name candidates for the drag monitor (results_extractor.py:144). -/
def drag_keys : List String := ["Drag Monitor: Drag Monitor (N)", "Drag", "drag"]

/-- Column-name candidates for the lift monitor (results_extractor.py:145). -/
def lift_keys : List String := ["Lift Monitor: Lift Monitor (N)", "Lift", "lift"]

/-- Outcome of `_extract_value` followed by `float(...)` on one quantity of one
row: the column is absent (`missing`, the `is not None` guard skips the
append), or `float` succeeds (`val`), or `float` raises (`err`). -/
inductive FloatRead where
  | missing
  | val (q : ℚ)
  | err
deriving DecidableEq

/-- Read one quantity from a row: `_extract_value` plus the `float` cast. -/
def readCell (row : Row) (keys : List String) : FloatRead :=
  match extract_value row keys with
  | none => .missing
  | some (.num q) => .val q
  | some .text => .err

/-- The four per-quantity accumulator lists of the row loop
(results_extractor.py:134-137). -/
structure Collected where
  cd_values : List ℚ
  cl_values : List ℚ
  drag_values : List ℚ
  lift_values : List ℚ
deriving DecidableEq

/-- `list.append` of a successfully converted value; no-op otherwise. -/
def pushVal (xs : List ℚ) : FloatRead → List ℚ
  | .val q => xs ++ [q]
  | _ => xs

/-- One iteration of the row loop (results_extractor.py:139-158).  The whole
body sits in one `try`: quantities are attempted in the order Cd, Cl, drag,
lift, and the first failing `float` conversion abandons the rest of the row
while keeping the values already appended earlier in the same row. -/
def processRow (acc : Collected) (row : Row) : Collected :=
  match readCell row cd_keys with
  | .err => acc
  | c1 =>
    let acc1 := { acc with cd_values := pushVal acc.cd_values c1 }
    match readCell row cl_keys with
    | .err => acc1
    | c2 =>
      let acc2 := { acc1 with cl_values := pushVal acc1.cl_values c2 }
      match readCell row drag_keys with
      | .err => acc2
      | c3 =>
        let acc3 := { acc2 with drag_values := pushVal acc2.drag_values c3 }
        match readCell row lift_keys with
        | .err => acc3
        | c4 => { acc3 with lift_values := pushVal acc3.lift_values c4 }

/-- The row loop over the windowed rows. -/
def collect_values (rows : List Row) : Collected :=
  rows.foldl processRow ⟨[], [], [], []⟩

/-- Arithmetic mean (`np.mean`). -/
def mean (xs : List ℚ) : ℚ := xs.sum / xs.length

/-- Radicand of `np.std`: the population variance (divide by `N`).  `np.std xs`
is its square root, which is irrational in general; the embedding carries the
radicand, and no property below depends on the magnitude, only on the field's
presence. -/
def popVariance (xs : List ℚ) : ℚ :=
  (xs.map (fun x => (x - mean xs) ^ 2)).sum / xs.length

/-- `parameters.get('Ref_Density[kg/m^3]', 1.225)` (results_extractor.py:125). -/
def ref_density (parameters : List (String × ℚ)) : ℚ :=
  (List.lookup "Ref_Density[kg/m^3]" parameters).getD (49 / 40)

/-- `parameters.get('Ref_Velocity[m/s]', 30.0)` (results_extractor.py:126). -/
def ref_velocity (parameters : List (String × ℚ)) : ℚ :=
  (List.lookup "Ref_Velocity[m/s]" parameters).getD 30

/-- `parameters.get('A[m^2]', 1.0)` (results_extractor.py:127). -/
def ref_area (parameters : List (String × ℚ)) : ℚ :=
  (List.lookup "A[m^2]" parameters).getD 1

/-- The trailing window (results_extractor.py:130-131):
`n_avg = min(n, len(series)); last_n = series[-n_avg:]`. -/
def lastWindow (n : ℕ) (series_data : List Row) : List Row :=
  series_data.drop (series_data.length - min n series_data.length)

/-- Result dictionary of `extract_from_force_series`
(results_extractor.py:160-195).  `none` models an absent key; for `avg_cd` and
`avg_cl`, `some none` models a key present holding Python `None` (possible
when the coefficient is derived from an averaged force under a zero
denominator). -/
structure SeriesResults where
  avg_cd : Option (Option ℚ) := none
  std_cd : Option ℚ := none
  avg_cl : Option (Option ℚ) := none
  std_cl : Option ℚ := none
  avg_drag_n : Option ℚ := none
  std_drag_n : Option ℚ := none
  avg_lift_n : Option ℚ := none
  std_lift_n : Option ℚ := none
deriving DecidableEq

/-- Assembly of the result dictionary from the collected lists
(results_extractor.py:160-195): each quantity's average and (population)
standard deviation is emitted only when its list is non-empty; `avg_cd`
(`avg_cl`) falls back to the coefficient computed from the averaged drag
(lift) force only when no direct Cd (Cl) monitor values were collected. -/
def assembleSeries (density velocity area : ℚ) (c : Collected) : SeriesResults :=
  { avg_cd :=
      if c.cd_values ≠ [] then some (some (mean c.cd_values))
      else if c.drag_values ≠ [] then
        some (calculate_coefficients (mean c.drag_values) 0 density velocity area).1
      else none
    std_cd := if c.cd_values ≠ [] then some (popVariance c.cd_values) else none
    avg_cl :=
      if c.cl_values ≠ [] then some (some (mean c.cl_values))
      else if c.lift_values ≠ [] then
        some (calculate_coefficients 0 (mean c.lift_values) density velocity area).2
      else none
    std_cl := if c.cl_values ≠ [] then some (popVariance c.cl_values) else none
    avg_drag_n := if c.drag_values ≠ [] then some (mean c.drag_values) else none
    std_drag_n := if c.drag_values ≠ [] then some (popVariance c.drag_values) else none
    avg_lift_n := if c.lift_values ≠ [] then some (mean c.lift_values) else none
    std_lift_n := if c.lift_values ≠ [] then some (popVariance c.lift_values) else none }

/-- `ResultsExtractor.extract_from_force_series` (results_extractor.py:110-195):
empty series yields the empty dictionary; otherwise the last
`min(300, len(series))` rows are collected per quantity and assembled. -/
def extract_from_force_series (series_data : List Row)
    (parameters : List (String × ℚ)) : SeriesResults :=
  if series_data.isEmpty then {}
  else
    assembleSeries (ref_density parameters) (ref_velocity parameters)
      (ref_area parameters) (collect_values (lastWindow 300 series_data))

/-- Modelled from the spec: the `signal_length`-parameterised variant
`_extract_from_force_series(data, parameters, signal_length=…)` exercised by
`tests/unit/test_results_extractor.py` is absent from `src/` (the `src/`
method hard-codes 300).  Per the spec it takes "the trailing window of up to
`signal_length` rows (default 300; if the series has fewer rows, use all of
them)" and proceeds exactly as the fixed-window version. -/
def extract_from_force_series_sig (signal_length : ℕ) (series_data : List Row)
    (parameters : List (String × ℚ)) : SeriesResults :=
  if series_data.isEmpty then {}
  else
    assembleSeries (ref_density parameters) (ref_velocity parameters)
      (ref_area parameters) (collect_values (lastWindow signal_length series_data))

/-! ## `SimulationRecord` (simulation_record.py) -/

/-- The `SimulationRecord` dataclass (simulation_record.py:10-56).  `car_name`
and `baseline_id` are annotated `str` in the source but are tested against
`None` by `is_complete`, so they are carried as `Option String`. -/
structure SimulationRecord where
  car_name : Option String
  car_group : String
  geometry_name : String
  unique_id : String
  baseline_id : Option String
  morph_type : Option String := none
  morph_value : Option ℚ := none
  morph_parameters : List (String × ℚ) := []
  s3_path : String := ""
  has_results : Bool := false
  simulator : Option String := none
  converged : Option Bool := none
  cd : Option ℚ := none
  cl : Option ℚ := none
  cd_front : Option ℚ := none
  cl_front : Option ℚ := none
  cl_rear : Option ℚ := none
  cs : Option ℚ := none
  drag_n : Option ℚ := none
  lift_n : Option ℚ := none
  avg_cd : Option ℚ := none
  avg_cl : Option ℚ := none
  avg_drag_n : Option ℚ := none
  avg_lift_n : Option ℚ := none
  std_cd : Option ℚ := none
  std_cl : Option ℚ := none
  std_drag_n : Option ℚ := none
  std_lift_n : Option ℚ := none
deriving DecidableEq

/-- `SimulationRecord.is_complete` (simulation_record.py:77):
`car_name is not None and baseline_id is not None and has_results`. -/
def SimulationRecord.is_complete (r : SimulationRecord) : Bool :=
  r.car_name.isSome && r.baseline_id.isSome && r.has_results

/-- `SimulationRecord.get_status` (simulation_record.py:89).  `if
self.converged:` is Python truthiness on `Optional[bool]`: only `True` is
truthy, both `False` and `None` take the else branch. -/
def SimulationRecord.get_status (r : SimulationRecord) : String :=
  if !r.has_results then "pending"
  else if r.is_complete then
    if r.converged = some true then "complete" else "complete_not_converged"
  else "incomplete"

/-- `SimulationRecord._find_results_folder` (simulation_record.py:154-188):
for the default simulator the folder's leaf name must equal `unique_id`
exactly; for any other `simulator_filter` it must equal
`f"{simulator_filter}_{unique_id}"`; the first equality hit in listing order
is returned, no-match yields `(None, "")`.  The S3 listing is passed in as
`all_folders`. -/
def SimulationRecord.find_results_folder (unique_id simulator_filter : String)
    (all_folders : List String) : Option String × String :=
  if simulator_filter = "JakubNet" then
    match all_folders.find? (fun folder => extract_folder_name folder == unique_id) with
    | some folder => (some folder, "JakubNet")
    | none => (none, "")
  else
    -- `expected_folder_name = f"{simulator_filter}_{self.unique_id}"`, inlined
    match all_folders.find?
        (fun folder =>
          extract_folder_name folder == simulator_filter ++ "_" ++ unique_id) with
    | some folder => (some folder, simulator_filter)
    | none => (none, "")

/-! ## `ResultsMatcher` (results_matcher.py) -/

/-- Python's `sub in s` substring test: `sub` occurs as a contiguous run of
characters in `s`. -/
def strContains (s sub : String) : Bool := decide (sub.toList <:+: s.toList)

/-- Python's `s.strip('_')`. -/
def strip_underscores (s : String) : String :=
  (s.dropWhile (· = '_')).dropRightWhile (· = '_')

/-- `ResultsMatcher.find_results_folder` (results_matcher.py:79-112): first
folder whose leaf name equals `unique_id` is returned with simulator
`"JakubNet"`; otherwise the first folder whose leaf name merely *contains*
`unique_id` is returned, with the simulator recovered by stripping
`f"_{unique_id}"` and `unique_id` out of the name (empty result meaning
`"JakubNet"`). -/
def ResultsMatcher.find_results_folder (unique_id : String) :
    List String → Option String × String
  | [] => (none, "")
  | folder :: rest =>
    let folder_name := extract_folder_name folder
    if folder_name = unique_id then (some folder, "JakubNet")
    else if strContains folder_name unique_id then
      let simulator := (folder_name.replace ("_" ++ unique_id) "").replace unique_id ""
      let simulator :=
        if simulator ≠ "" then strip_underscores simulator else "JakubNet"
      (some folder, simulator)
    else ResultsMatcher.find_results_folder unique_id rest

/-- Abstraction of the dictionary returned by
`ResultsExtractor.extract_from_folder`, as consumed through `results.get(…)`
by `ResultsMatcher.match_and_extract` (results_matcher.py:58-73).  A `none`
field models an absent key; for `avg_cd`/`avg_cl`, `some none` models a key
present holding Python `None`. -/
structure ResultsMap where
  converged : Option Bool := none
  cd : Option ℚ := none
  cl : Option ℚ := none
  drag_n : Option ℚ := none
  lift_n : Option ℚ := none
  avg_cd : Option (Option ℚ) := none
  avg_cl : Option (Option ℚ) := none
  avg_drag_n : Option ℚ := none
  avg_lift_n : Option ℚ := none
  std_cd : Option ℚ := none
  std_cl : Option ℚ := none
  std_drag_n : Option ℚ := none
  std_lift_n : Option ℚ := none
deriving DecidableEq

/-- The `set_results` call at results_matcher.py:58-73.  Every keyword names
an existing dataclass field, so the `hasattr` guard inside `set_results`
passes for each of them and the call reduces to plain field assignment.
`results.get(k)` yields `None` both when `k` is absent and when it is present
holding `None`, hence `Option.join` on the nested fields. -/
def SimulationRecord.set_results_from (r : SimulationRecord) (simulator : String)
    (results : ResultsMap) : SimulationRecord :=
  { r with
    has_results := true
    converged := some (results.converged.getD false)
    simulator := some simulator
    cd := results.cd
    cl := results.cl
    drag_n := results.drag_n
    lift_n := results.lift_n
    avg_cd := results.avg_cd.join
    avg_cl := results.avg_cl.join
    avg_drag_n := results.avg_drag_n
    avg_lift_n := results.avg_lift_n
    std_cd := results.std_cd
    std_cl := results.std_cl
    std_drag_n := results.std_drag_n
    std_lift_n := results.std_lift_n }

/-- `ResultsMatcher.match_and_extract` (results_matcher.py:29-77).  The S3
listing and the extraction step (`extract_from_folder`, whose outcome depends
on remote objects) are passed in as `all_folders` and `extractor`.  `if not
results_folder:` is Python truthiness: `None` and the empty string both count
as no-match. -/
def ResultsMatcher.match_and_extract (all_folders : List String)
    (extractor : String → String → Option ResultsMap)
    (record : SimulationRecord) : SimulationRecord :=
  match ResultsMatcher.find_results_folder record.unique_id all_folders with
  | (none, _) => { record with has_results := false }
  | (some folder, simulator) =>
    if folder = "" then { record with has_results := false }
    else
      match extractor folder simulator with
      | none => { record with has_results := false }
      | some results => record.set_results_from simulator results

/-! ## Discovery (`SimulationDiscovery.create_simulation_record`) -/

/-- The metadata dictionary produced by
`MetadataExtractor.parse_geometry_json` (metadata_extractor.py:48-78); all six
keys are always present. -/
structure Metadata where
  unique_id : String
  car_name : String
  baseline_id : String
  morph_type : Option String
  morph_value : ℚ
  morph_parameters : List (String × ℚ)

/-- `SimulationDiscovery.create_simulation_record` (discovery.py:61-100) for a
folder with successfully extracted metadata: identity and geometry fields are
populated, every result field keeps its dataclass default. -/
def create_simulation_record (car_groups : List (String × String))
    (geometry_folder : String) (md : Metadata) : SimulationRecord :=
  { car_name := some md.car_name
    car_group := (List.lookup md.car_name car_groups).getD "unknown"
    geometry_name := extract_folder_name geometry_folder
    unique_id := md.unique_id
    baseline_id := some md.baseline_id
    morph_type := md.morph_type
    morph_value := some md.morph_value
    morph_parameters := md.morph_parameters
    s3_path := geometry_folder }

/-! ## Dynamic attribute model of `set_results` (simulation_record.py:66-75)

`set_results` merges arbitrary keyword arguments onto the record with
`hasattr`/`setattr`.  To state claims about that dynamic behaviour faithfully,
a record object is modelled the way CPython stores it: an attribute table from
name to value. -/

/-- A Python attribute value, as far as the record's fields need. -/
inductive PyVal where
  | pyNone
  | pyBool (b : Bool)
  | pyNum (q : ℚ)
  | pyStr (s : String)
  | pyDict (entries : List (String × ℚ))
deriving DecidableEq

/-- An object's attribute table (`__dict__`): name → value, insertion order. -/
abbrev AttrMap := List (String × PyVal)

/-- Python `hasattr(obj, k)` over the attribute table. -/
def hasattr (attrs : AttrMap) (k : String) : Bool :=
  (List.lookup k attrs).isSome

/-- Python `setattr(obj, k, v)`: update in place when the attribute exists,
append a new attribute otherwise. -/
def setattr (attrs : AttrMap) (k : String) (v : PyVal) : AttrMap :=
  if hasattr attrs k then
    attrs.map (fun kv => if kv.1 = k then (kv.1, v) else kv)
  else attrs ++ [(k, v)]

/-- `SimulationRecord.set_results` (simulation_record.py:66-75) on the
attribute table: assign `has_results = True`, `converged`, `simulator`, then
for each keyword argument in order assign it only when the attribute already
exists (`if hasattr(self, key): setattr(self, key, value)`). -/
def set_results (attrs : AttrMap) (converged simulator : PyVal)
    (kwargs : List (String × PyVal)) : AttrMap :=
  let a1 := setattr attrs "has_results" (.pyBool true)
  let a2 := setattr a1 "converged" converged
  let a3 := setattr a2 "simulator" simulator
  kwargs.foldl
    (fun a kv => if hasattr a kv.1 then setattr a kv.1 kv.2 else a) a3

/-- Encoding of `Option String` attribute values. -/
def optStr : Option String → PyVal
  | none => .pyNone
  | some s => .pyStr s

/-- Encoding of `Option ℚ` attribute values. -/
def optNum : Option ℚ → PyVal
  | none => .pyNone
  | some q => .pyNum q

/-- Encoding of `Option Bool` attribute values. -/
def optBool : Option Bool → PyVal
  | none => .pyNone
  | some b => .pyBool b

/-- The attribute table of a `SimulationRecord` instance: exactly the
dataclass fields of simulation_record.py:10-56, in declaration order.
(`hasattr` on a live object also sees class-level methods; the record claims
below quantify over arbitrary tables, so tables extended with method names are
covered as instances.) -/
def SimulationRecord.attrs (r : SimulationRecord) : AttrMap :=
  [("car_name", optStr r.car_name),
   ("car_group", .pyStr r.car_group),
   ("geometry_name", .pyStr r.geometry_name),
   ("unique_id", .pyStr r.unique_id),
   ("baseline_id", optStr r.baseline_id),
   ("morph_type", optStr r.morph_type),
   ("morph_value", optNum r.morph_value),
   ("morph_parameters", .pyDict r.morph_parameters),
   ("s3_path", .pyStr r.s3_path),
   ("has_results", .pyBool r.has_results),
   ("simulator", optStr r.simulator),
   ("converged", optBool r.converged),
   ("cd", optNum r.cd),
   ("cl", optNum r.cl),
   ("cd_front", optNum r.cd_front),
   ("cl_front", optNum r.cl_front),
   ("cl_rear", optNum r.cl_rear),
   ("cs", optNum r.cs),
   ("drag_n", optNum r.drag_n),
   ("lift_n", optNum r.lift_n),
   ("avg_cd", optNum r.avg_cd),
   ("avg_cl", optNum r.avg_cl),
   ("avg_drag_n", optNum r.avg_drag_n),
   ("avg_lift_n", optNum r.avg_lift_n),
   ("std_cd", optNum r.std_cd),
   ("std_cl", optNum r.std_cl),
   ("std_drag_n", optNum r.std_drag_n),
   ("std_lift_n", optNum r.std_lift_n)]

/-! ## Theorems -/

/-- C1: for the default simulator filter (`"JakubNet"`) the matcher returns a
folder only if its leaf name equals `unique_id` exactly; for any other filter
`X` only if its leaf name equals exactly `X ++ "_" ++ unique_id` — in
particular a folder whose leaf name is `unique_id` alone is never returned
under a filter `X` different from the default; the returned folder is the
first equality hit in listing order, and no-match yields `(none, "")`. -/
theorem c1_matcher_exact_equality
    (unique_id simulator_filter : String) (all_folders : List String)
    (folder sim : String)
    (h : SimulationRecord.find_results_folder unique_id simulator_filter all_folders
        = (some folder, sim)) :
    (simulator_filter = "JakubNet" →
      extract_folder_name folder = unique_id ∧ sim = "JakubNet" ∧
      all_folders.find? (fun g => extract_folder_name g == unique_id) = some folder) ∧
    (simulator_filter ≠ "JakubNet" →
      extract_folder_name folder = simulator_filter ++ "_" ++ unique_id ∧
      sim = simulator_filter ∧
      extract_folder_name folder ≠ unique_id ∧
      all_folders.find?
        (fun g => extract_folder_name g == (simulator_filter ++ "_" ++ unique_id))
        = some folder) := by
  unfold SimulationRecord.find_results_folder at h
  by_cases hf : simulator_filter = "JakubNet"
  · rw [if_pos hf] at h
    refine ⟨fun _ => ?_, fun hne => absurd hf hne⟩
    cases hfind : all_folders.find? (fun g => extract_folder_name g == unique_id) with
    | none => rw [hfind] at h; exact absurd (congrArg Prod.fst h) (by simp)
    | some g =>
      rw [hfind] at h
      injection h with hg hs
      injection hg with hg
      subst hg
      have := List.find?_some hfind
      exact ⟨by simpa using this, hs.symm, rfl⟩
  · rw [if_neg hf] at h
    refine ⟨fun heq => absurd heq hf, fun _ => ?_⟩
    cases hfind : all_folders.find?
        (fun g => extract_folder_name g == (simulator_filter ++ "_" ++ unique_id)) with
    | none => rw [hfind] at h; exact absurd (congrArg Prod.fst h) (by simp)
    | some g =>
      rw [hfind] at h
      injection h with hg hs
      injection hg with hg
      subst hg
      have hname : extract_folder_name g = simulator_filter ++ "_" ++ unique_id := by
        simpa using List.find?_some hfind
      refine ⟨hname, hs.symm, ?_, rfl⟩
      rw [hname]
      intro habs
      have hlen := congrArg String.length habs
      rw [String.length_append, String.length_append] at hlen
      have h1 : ("_" : String).length = 1 := by decide
      omega

/-- C1 witness: under filter `"SimX"` the folder `res/SimX_id1/` is matched
with leaf name `SimX_id1`, and its leaf name differs from `id1`. -/
theorem c1_matcher_exact_equality_witness :
    extract_folder_name "res/SimX_id1/" = "SimX" ++ "_" ++ "id1" ∧
    "SimX" = "SimX" ∧
    extract_folder_name "res/SimX_id1/" ≠ "id1" ∧
    (["res/SimX_id1/"].find?
      (fun g => extract_folder_name g == ("SimX" ++ "_" ++ "id1")) = some "res/SimX_id1/") :=
  (c1_matcher_exact_equality "id1" "SimX" ["res/SimX_id1/"] "res/SimX_id1/" "SimX"
    (by decide)).2 (by decide)

/-- A record without results, exhibiting the status label the code actually
produces there. -/
def c2_record : SimulationRecord :=
  { car_name := some "Test", car_group := "Test", geometry_name := "g1",
    unique_id := "g1", baseline_id := some "b1" }

/-- C2 counterexample: a record with `has_results = false` has status
`"pending"`, not `"incomplete"` as claimed. -/
theorem c2_status_counterexample :
    c2_record.has_results = false ∧
    c2_record.get_status = "pending" ∧
    c2_record.get_status ≠ "incomplete" := by
  refine ⟨rfl, by decide, by decide⟩

/-- C2 amended: the status is a pure function of the state, with these
labels: `has_results = false` yields `"pending"`; `has_results = true` with
`car_name` and `baseline_id` both set yields `"complete"` when `converged` is
`true` and `"complete_not_converged"` when `converged` is `false` or absent;
`has_results = true` with `car_name` or `baseline_id` unset yields
`"incomplete"`. -/
theorem c2_status_amended (r : SimulationRecord) :
    (r.has_results = false → r.get_status = "pending") ∧
    (r.has_results = true → r.car_name.isSome → r.baseline_id.isSome →
      r.get_status =
        if r.converged = some true then "complete" else "complete_not_converged") ∧
    (r.has_results = true → (r.car_name = none ∨ r.baseline_id = none) →
      r.get_status = "incomplete") := by
  unfold SimulationRecord.get_status SimulationRecord.is_complete
  refine ⟨fun h => by simp [h], fun h hc hb => ?_, fun h hcb => ?_⟩
  · simp [h, hc, hb]
  · rcases hcb with hc | hb
    · simp [h, hc]
    · simp [h, hb]

/-- C2 witness: the amended status derivation at concrete records. -/
theorem c2_status_amended_witness :
    c2_record.get_status = "pending" :=
  (c2_status_amended c2_record).1 rfl

/-- C3: the metadata extractor returns the pair of the first key, in stored
iteration order, whose value is not `0.0`; when there is none (all zero or
empty mapping) it returns `(none, 0)`. -/
theorem c3_first_nonzero_morph (morph_parameters : List (String × ℚ)) :
    extract_morph_info morph_parameters =
      match morph_parameters.find? (fun p => decide (p.2 ≠ 0)) with
      | some p => (some p.1, p.2)
      | none => (none, 0) := by
  induction morph_parameters with
  | nil => rfl
  | cons hd tl ih =>
    by_cases hz : hd.2 = 0
    · simpa [extract_morph_info, List.find?, hz] using ih
    · simp [extract_morph_info, List.find?, hz]

/-- C4: whenever the dynamic-pressure denominator is nonzero, both computed
coefficients equal `2·F/(ρ·v²·A)`. -/
theorem c4_coefficient_formula (drag_n lift_n density velocity area : ℚ)
    (h : density * velocity ^ 2 * area ≠ 0) :
    calculate_coefficients drag_n lift_n density velocity area =
      (some (2 * drag_n / (density * velocity ^ 2 * area)),
       some (2 * lift_n / (density * velocity ^ 2 * area))) := by
  unfold calculate_coefficients
  rw [if_neg h]

/-- C4 witness: the spec's example `F = 100, ρ = 1.225, v = 27.78, A = 2.5`
(as exact rationals `49/40`, `1389/50`, `5/2`). -/
theorem c4_coefficient_formula_witness :
    (49 / 40 : ℚ) * (1389 / 50) ^ 2 * (5 / 2) ≠ 0 ∧
    calculate_coefficients 100 50 (49 / 40) (1389 / 50) (5 / 2) =
      (some (2 * 100 / ((49 / 40 : ℚ) * (1389 / 50) ^ 2 * (5 / 2))),
       some (2 * 50 / ((49 / 40 : ℚ) * (1389 / 50) ^ 2 * (5 / 2)))) :=
  ⟨by norm_num, c4_coefficient_formula 100 50 (49 / 40) (1389 / 50) (5 / 2) (by norm_num)⟩

/-- C5: a zero density, velocity or area makes the denominator exactly zero
and the coefficient computation returns an absent value for both
coefficients (the total Lean function witnesses that no division error is
raised). -/
theorem c5_zero_denominator_absent (drag_n lift_n density velocity area : ℚ)
    (h : density = 0 ∨ velocity = 0 ∨ area = 0) :
    calculate_coefficients drag_n lift_n density velocity area = (none, none) := by
  have hz : density * velocity ^ 2 * area = 0 := by
    rcases h with h | h | h <;> simp [h]
  unfold calculate_coefficients
  rw [if_pos hz]

/-- C5 witness: zero area with otherwise realistic reference values. -/
theorem c5_zero_denominator_absent_witness :
    ((49 / 40 : ℚ) = 0 ∨ (1389 / 50 : ℚ) = 0 ∨ (0 : ℚ) = 0) ∧
    calculate_coefficients 100 50 (49 / 40) (1389 / 50) 0 = (none, none) :=
  ⟨Or.inr (Or.inr rfl),
   c5_zero_denominator_absent 100 50 (49 / 40) (1389 / 50) 0 (Or.inr (Or.inr rfl))⟩

/-- The drag-monitor column name (results_extractor.py:144). -/
def dragCol : String := "Drag Monitor: Drag Monitor (N)"

/-- The lift-monitor column name (results_extractor.py:145). -/
def liftCol : String := "Lift Monitor: Lift Monitor (N)"

/-- The spec's averaging example: five rows with drag samples 80..84 and lift
samples 10..14. -/
def c6_rows : List Row :=
  [[(dragCol, Cell.num 80), (liftCol, Cell.num 10)],
   [(dragCol, Cell.num 81), (liftCol, Cell.num 11)],
   [(dragCol, Cell.num 82), (liftCol, Cell.num 12)],
   [(dragCol, Cell.num 83), (liftCol, Cell.num 13)],
   [(dragCol, Cell.num 84), (liftCol, Cell.num 14)]]

/-- Reference parameters for the averaging example. -/
def c6_params : List (String × ℚ) :=
  [("Ref_Density[kg/m^3]", 49 / 40), ("Ref_Velocity[m/s]", 30), ("A[m^2]", 5 / 2)]

/-- C6: the averaging window keeps exactly the trailing `signal_length` rows
when `signal_length < L`, and all `L` rows when `signal_length ≥ L`; the
`src/` extraction is the `signal_length = 300` instance of the parameterised
variant; and on the example series, window 3 averages drag to `83` and lift
to `13`. -/
theorem c6_trailing_window (signal_length : ℕ) (series_data : List Row)
    (parameters : List (String × ℚ)) :
    (signal_length < series_data.length →
      series_data.take (series_data.length - signal_length) ++
          lastWindow signal_length series_data = series_data ∧
      (lastWindow signal_length series_data).length = signal_length) ∧
    (series_data.length ≤ signal_length →
      lastWindow signal_length series_data = series_data) ∧
    extract_from_force_series series_data parameters =
      extract_from_force_series_sig 300 series_data parameters ∧
    (extract_from_force_series_sig 3 c6_rows c6_params).avg_drag_n = some 83 ∧
    (extract_from_force_series_sig 3 c6_rows c6_params).avg_lift_n = some 13 := by
  refine ⟨fun hlt => ⟨?_, ?_⟩, fun hle => ?_, rfl, ?_, ?_⟩
  · unfold lastWindow
    rw [Nat.min_eq_left (le_of_lt hlt)]
    exact List.take_append_drop _ _
  · unfold lastWindow
    rw [List.length_drop]
    omega
  · unfold lastWindow
    have : series_data.length - min signal_length series_data.length = 0 := by omega
    rw [this, List.drop_zero]
  · simp [extract_from_force_series_sig, c6_rows, c6_params, lastWindow, collect_values,
      processRow, readCell, extract_value, cd_keys, cl_keys, drag_keys, lift_keys,
      dragCol, liftCol, List.lookup, assembleSeries, mean, ref_density, ref_velocity,
      ref_area, pushVal]
    norm_num
  · simp [extract_from_force_series_sig, c6_rows, c6_params, lastWindow, collect_values,
      processRow, readCell, extract_value, cd_keys, cl_keys, drag_keys, lift_keys,
      dragCol, liftCol, List.lookup, assembleSeries, mean, ref_density, ref_velocity,
      ref_area, pushVal]
    norm_num

/-- C6 witness: window 3 on the five-row example keeps exactly the trailing 3
rows, and the windowed drag average is `83`. -/
theorem c6_trailing_window_witness :
    (c6_rows.take (c6_rows.length - 3) ++ lastWindow 3 c6_rows = c6_rows ∧
      (lastWindow 3 c6_rows).length = 3) ∧
    (extract_from_force_series_sig 3 c6_rows c6_params).avg_drag_n = some 83 :=
  ⟨(c6_trailing_window 3 c6_rows c6_params).1 (by decide),
   (c6_trailing_window 3 c6_rows c6_params).2.2.2.1⟩

/-- Counterexample input for the averaged-coefficient claim: a window whose
rows carry a direct `Cd` column next to the drag column. -/
def c7_rows : List Row := [[("Cd", Cell.num 5), (dragCol, Cell.num 100)]]

/-- Reference parameters making the dynamic-pressure denominator equal `1`. -/
def c7_params : List (String × ℚ) :=
  [("Ref_Density[kg/m^3]", 1), ("Ref_Velocity[m/s]", 1), ("A[m^2]", 1)]

/-- C7 counterexample: with a direct `Cd` column present, the averaged drag
force is `100` and the denominator is `1`, so the claimed averaged drag
coefficient would be `2·100/1 = 200`; the code instead reports the mean of
the `Cd` column, `5`. -/
theorem c7_counterexample :
    (extract_from_force_series c7_rows c7_params).avg_drag_n = some 100 ∧
    ref_density c7_params * (ref_velocity c7_params) ^ 2 * ref_area c7_params = 1 ∧
    (extract_from_force_series c7_rows c7_params).avg_cd = some (some 5) ∧
    (5 : ℚ) ≠ 2 * 100 / 1 := by
  refine ⟨?_, ?_, ?_, by norm_num⟩
  · simp [extract_from_force_series, c7_rows, c7_params, lastWindow, collect_values,
      processRow, readCell, extract_value, cd_keys, cl_keys, drag_keys, lift_keys,
      dragCol, List.lookup, assembleSeries, mean, ref_density, ref_velocity,
      ref_area, pushVal]
  · simp [c7_params, ref_density, ref_velocity, ref_area, List.lookup]
  · simp [extract_from_force_series, c7_rows, c7_params, lastWindow, collect_values,
      processRow, readCell, extract_value, cd_keys, cl_keys, drag_keys, lift_keys,
      dragCol, List.lookup, assembleSeries, mean, ref_density, ref_velocity,
      ref_area, pushVal]

/-- C7 amended: the averaged drag (lift) coefficient equals
`2·mean(drag)/(ρ·v²·A)` only when no direct `Cd` (`Cl`) monitor values were
collected and the denominator is nonzero; when direct `Cd` (`Cl`) monitor
values are collected, the averaged coefficient is their direct mean instead;
an empty collected force list for a quantity omits that quantity's averaged
force and standard-deviation fields, and a non-empty one produces them from
the collected values. -/
theorem c7_averaged_coefficients (series_data : List Row)
    (parameters : List (String × ℚ)) (c : Collected) (den : ℚ)
    (hc : c = collect_values (lastWindow 300 series_data))
    (hden : den = ref_density parameters * (ref_velocity parameters) ^ 2 *
      ref_area parameters)
    (hne : series_data ≠ []) :
    (c.cd_values = [] → c.drag_values ≠ [] → den ≠ 0 →
      (extract_from_force_series series_data parameters).avg_cd =
        some (some (2 * mean c.drag_values / den))) ∧
    (c.cl_values = [] → c.lift_values ≠ [] → den ≠ 0 →
      (extract_from_force_series series_data parameters).avg_cl =
        some (some (2 * mean c.lift_values / den))) ∧
    (c.drag_values = [] →
      (extract_from_force_series series_data parameters).avg_drag_n = none ∧
      (extract_from_force_series series_data parameters).std_drag_n = none) ∧
    (c.lift_values = [] →
      (extract_from_force_series series_data parameters).avg_lift_n = none ∧
      (extract_from_force_series series_data parameters).std_lift_n = none) ∧
    (c.drag_values ≠ [] →
      (extract_from_force_series series_data parameters).avg_drag_n =
        some (mean c.drag_values) ∧
      (extract_from_force_series series_data parameters).std_drag_n =
        some (popVariance c.drag_values)) ∧
    (c.lift_values ≠ [] →
      (extract_from_force_series series_data parameters).avg_lift_n =
        some (mean c.lift_values) ∧
      (extract_from_force_series series_data parameters).std_lift_n =
        some (popVariance c.lift_values)) ∧
    (c.cd_values ≠ [] →
      (extract_from_force_series series_data parameters).avg_cd =
        some (some (mean c.cd_values)) ∧
      (extract_from_force_series series_data parameters).std_cd =
        some (popVariance c.cd_values)) ∧
    (c.cl_values ≠ [] →
      (extract_from_force_series series_data parameters).avg_cl =
        some (some (mean c.cl_values)) ∧
      (extract_from_force_series series_data parameters).std_cl =
        some (popVariance c.cl_values)) := by
  have hemp : series_data.isEmpty = false := by
    cases series_data with
    | nil => exact absurd rfl hne
    | cons a l => rfl
  unfold extract_from_force_series
  rw [hemp]
  simp only [Bool.false_eq_true, if_false]
  rw [← hc]
  refine ⟨fun h1 h2 h3 => ?_, fun h1 h2 h3 => ?_, fun h => ?_, fun h => ?_,
    fun h => ?_, fun h => ?_, fun h => ?_, fun h => ?_⟩
  · simp only [assembleSeries, h1, h2, if_neg, if_pos, ne_eq,
      not_true_eq_false, not_false_eq_true, ite_true, ite_false]
    unfold calculate_coefficients
    rw [← hden, if_neg h3]
  · simp only [assembleSeries, h1, h2, if_neg, if_pos, ne_eq,
      not_true_eq_false, not_false_eq_true, ite_true, ite_false]
    unfold calculate_coefficients
    rw [← hden, if_neg h3]
  · exact ⟨by simp [assembleSeries, h], by simp [assembleSeries, h]⟩
  · exact ⟨by simp [assembleSeries, h], by simp [assembleSeries, h]⟩
  · exact ⟨by simp [assembleSeries, h], by simp [assembleSeries, h]⟩
  · exact ⟨by simp [assembleSeries, h], by simp [assembleSeries, h]⟩
  · exact ⟨by simp [assembleSeries, h], by simp [assembleSeries, h]⟩
  · exact ⟨by simp [assembleSeries, h], by simp [assembleSeries, h]⟩

/-- C7 witness: a one-row series with only a drag column, unit reference
parameters: the averaged drag coefficient is computed from the averaged drag
force by the coefficient formula. -/
theorem c7_averaged_coefficients_witness :
    (extract_from_force_series [[(dragCol, Cell.num 100)]] c7_params).avg_cd =
      some (some (2 *
        mean (collect_values (lastWindow 300 [[(dragCol, Cell.num 100)]])).drag_values /
        (ref_density c7_params * (ref_velocity c7_params) ^ 2 * ref_area c7_params))) :=
  (c7_averaged_coefficients [[(dragCol, Cell.num 100)]] c7_params _ _ rfl rfl
    (by simp)).1
    (by simp [collect_values, lastWindow, processRow, readCell, extract_value,
      cd_keys, cl_keys, drag_keys, lift_keys, dragCol, List.lookup, pushVal])
    (by simp [collect_values, lastWindow, processRow, readCell, extract_value,
      cd_keys, cl_keys, drag_keys, lift_keys, dragCol, List.lookup, pushVal])
    (by simp [c7_params, ref_density, ref_velocity, ref_area, List.lookup])

/-- A row on which no `float` conversion raises: each of the four quantity
columns is either absent or numeric. -/
def rowOk (row : Row) : Prop :=
  readCell row cd_keys ≠ .err ∧ readCell row cl_keys ≠ .err ∧
  readCell row drag_keys ≠ .err ∧ readCell row lift_keys ≠ .err

instance (row : Row) : Decidable (rowOk row) := by
  unfold rowOk
  infer_instance

/-- Per-quantity independent collection: the numeric values of one quantity's
column across the rows, each row contributing independently. -/
def collectOne (keys : List String) (rows : List Row) : List ℚ :=
  rows.filterMap (fun row =>
    match readCell row keys with
    | .val q => some q
    | _ => none)

/-- The Cd value an arbitrary row contributes to the collection: Cd is
converted first in the loop body, so a numeric Cd cell is always kept. -/
def keptCd (row : Row) : Option ℚ :=
  match readCell row cd_keys with
  | .val q => some q
  | _ => none

/-- The Cl value an arbitrary row contributes: kept only when the row's Cd
conversion did not raise (Cd is attempted before Cl). -/
def keptCl (row : Row) : Option ℚ :=
  if readCell row cd_keys = .err then none
  else
    match readCell row cl_keys with
    | .val q => some q
    | _ => none

/-- The drag value an arbitrary row contributes: kept only when neither the
Cd nor the Cl conversion raised earlier in the row. -/
def keptDrag (row : Row) : Option ℚ :=
  if readCell row cd_keys = .err ∨ readCell row cl_keys = .err then none
  else
    match readCell row drag_keys with
    | .val q => some q
    | _ => none

/-- The lift value an arbitrary row contributes: kept only when none of the
Cd, Cl and drag conversions raised earlier in the row. -/
def keptLift (row : Row) : Option ℚ :=
  if readCell row cd_keys = .err ∨ readCell row cl_keys = .err ∨
      readCell row drag_keys = .err then none
  else
    match readCell row lift_keys with
    | .val q => some q
    | _ => none

/-- One loop iteration on an arbitrary (possibly malformed) row appends to
each quantity exactly that row's kept contribution. -/
theorem processRow_eq (acc : Collected) (row : Row) :
    processRow acc row =
      ⟨acc.cd_values ++ (keptCd row).toList,
       acc.cl_values ++ (keptCl row).toList,
       acc.drag_values ++ (keptDrag row).toList,
       acc.lift_values ++ (keptLift row).toList⟩ := by
  cases hcd : readCell row cd_keys <;> cases hcl : readCell row cl_keys <;>
    cases hdr : readCell row drag_keys <;> cases hlf : readCell row lift_keys <;>
    simp_all [processRow, pushVal, keptCd, keptCl, keptDrag, keptLift]

/-- One element's optional contribution folds into `filterMap`. -/
theorem toList_append_filterMap {α β : Type} (f : α → Option β) (x : α)
    (l : List α) (xs : List β) :
    (xs ++ (f x).toList) ++ l.filterMap f = xs ++ (x :: l).filterMap f := by
  cases h : f x <;> simp [List.filterMap_cons, h]

/-- The row loop from any accumulator, on arbitrary rows, extends each list
by exactly the rows' kept contributions. -/
theorem foldl_processRow_eq (rows : List Row) (acc : Collected) :
    rows.foldl processRow acc =
      ⟨acc.cd_values ++ rows.filterMap keptCd,
       acc.cl_values ++ rows.filterMap keptCl,
       acc.drag_values ++ rows.filterMap keptDrag,
       acc.lift_values ++ rows.filterMap keptLift⟩ := by
  induction rows generalizing acc with
  | nil => simp
  | cons row rows ih =>
    rw [List.foldl_cons, processRow_eq acc row, ih]
    simp only [Collected.mk.injEq]
    exact ⟨toList_append_filterMap keptCd row rows acc.cd_values,
      toList_append_filterMap keptCl row rows acc.cl_values,
      toList_append_filterMap keptDrag row rows acc.drag_values,
      toList_append_filterMap keptLift row rows acc.lift_values⟩

/-- On a row with no failing conversion, one loop iteration appends each
present quantity value independently. -/
theorem processRow_ok (acc : Collected) (row : Row) (h : rowOk row) :
    processRow acc row =
      ⟨pushVal acc.cd_values (readCell row cd_keys),
       pushVal acc.cl_values (readCell row cl_keys),
       pushVal acc.drag_values (readCell row drag_keys),
       pushVal acc.lift_values (readCell row lift_keys)⟩ := by
  obtain ⟨h1, h2, h3, h4⟩ := h
  cases hcd : readCell row cd_keys <;> cases hcl : readCell row cl_keys <;>
    cases hdr : readCell row drag_keys <;> cases hlf : readCell row lift_keys <;>
    simp_all [processRow, pushVal]

/-- Appending one row's contribution commutes with per-quantity collection. -/
theorem push_collectOne (keys : List String) (row : Row) (rows : List Row)
    (xs : List ℚ) :
    pushVal xs (readCell row keys) ++ collectOne keys rows =
      xs ++ collectOne keys (row :: rows) := by
  cases h : readCell row keys <;>
    simp [pushVal, collectOne, List.filterMap_cons, h]

/-- The row loop started from any accumulator, on rows with no failing
conversions, extends each list by the per-quantity collection. -/
theorem foldl_processRow_ok (rows : List Row) (acc : Collected)
    (h : ∀ row ∈ rows, rowOk row) :
    rows.foldl processRow acc =
      ⟨acc.cd_values ++ collectOne cd_keys rows,
       acc.cl_values ++ collectOne cl_keys rows,
       acc.drag_values ++ collectOne drag_keys rows,
       acc.lift_values ++ collectOne lift_keys rows⟩ := by
  induction rows generalizing acc with
  | nil => simp [collectOne]
  | cons row rows ih =>
    rw [List.foldl_cons, processRow_ok acc row (h row (List.mem_cons_self row rows)),
      ih _ (fun r hr => h r (List.mem_cons_of_mem row hr))]
    have e1 := push_collectOne cd_keys row rows acc.cd_values
    have e2 := push_collectOne cl_keys row rows acc.cl_values
    have e3 := push_collectOne drag_keys row rows acc.drag_values
    have e4 := push_collectOne lift_keys row rows acc.lift_values
    simp only [Collected.mk.injEq]
    exact ⟨e1, e2, e3, e4⟩

/-- Counterexample input: the middle row's drag cell is non-numeric while its
lift cell is numeric. -/
def c8_rows : List Row :=
  [[(dragCol, Cell.num 80), (liftCol, Cell.num 10)],
   [(dragCol, Cell.text), (liftCol, Cell.num 11)],
   [(dragCol, Cell.num 84), (liftCol, Cell.num 14)]]

/-- C8 counterexample: the middle row of `c8_rows` holds the numeric lift
value `11`, yet the collected lift values are `[10, 14]` and the averaged
lift is `12` — the non-numeric *drag* cell of that row also excluded its
numeric lift cell, so drag and lift are not collected independently per row
(the claimed independent average would be `(10+11+14)/3 = 35/3 ≠ 12`). -/
theorem c8_counterexample :
    List.lookup liftCol (c8_rows.get ⟨1, by simp [c8_rows]⟩) = some (Cell.num 11) ∧
    (collect_values c8_rows).lift_values = [10, 14] ∧
    (extract_from_force_series c8_rows c7_params).avg_lift_n = some 12 ∧
    (12 : ℚ) ≠ (10 + 11 + 14) / 3 := by
  refine ⟨?_, ?_, ?_, by norm_num⟩
  · simp [c8_rows, liftCol, dragCol, List.lookup]
  · simp [collect_values, c8_rows, processRow, readCell, extract_value,
      cd_keys, cl_keys, drag_keys, lift_keys, dragCol, liftCol, List.lookup, pushVal]
  · simp [extract_from_force_series, c8_rows, c7_params, lastWindow, collect_values,
      processRow, readCell, extract_value, cd_keys, cl_keys, drag_keys, lift_keys,
      dragCol, liftCol, List.lookup, assembleSeries, mean, ref_density, ref_velocity,
      ref_area, pushVal]
    norm_num

/-- C8 amended: on arbitrary (possibly malformed) series the collection is
characterised exactly: a row contributes its numeric Cd cell always, and each
later quantity's numeric cell only when no earlier-ordered conversion in that
row raised — so a row missing a quantity's column is excluded from that
quantity's collection only (on rows with no failing conversion the four
quantities are collected independently), while a non-numeric value drops that
quantity's value *and* the quantities processed after it in the order Cd, Cl,
drag, lift (in particular a non-numeric drag cell drops that row's lift
value), keeping the values appended earlier in the row — stated for each of
the four failing positions; and a malformed row never aborts the loop: the
remaining rows are still folded. -/
theorem c8_row_exclusion :
    (∀ rows : List Row,
      collect_values rows =
        ⟨rows.filterMap keptCd, rows.filterMap keptCl,
         rows.filterMap keptDrag, rows.filterMap keptLift⟩) ∧
    (∀ rows : List Row, (∀ row ∈ rows, rowOk row) →
      collect_values rows =
        ⟨collectOne cd_keys rows, collectOne cl_keys rows,
         collectOne drag_keys rows, collectOne lift_keys rows⟩) ∧
    (∀ (acc : Collected) (row : Row),
      readCell row cd_keys = .err →
      processRow acc row = acc) ∧
    (∀ (acc : Collected) (row : Row),
      readCell row cd_keys ≠ .err → readCell row cl_keys = .err →
      processRow acc row =
        { acc with
          cd_values := pushVal acc.cd_values (readCell row cd_keys) }) ∧
    (∀ (acc : Collected) (row : Row),
      readCell row cd_keys ≠ .err → readCell row cl_keys ≠ .err →
      readCell row drag_keys = .err →
      processRow acc row =
        { acc with
          cd_values := pushVal acc.cd_values (readCell row cd_keys),
          cl_values := pushVal acc.cl_values (readCell row cl_keys) }) ∧
    (∀ (acc : Collected) (row : Row),
      readCell row cd_keys ≠ .err → readCell row cl_keys ≠ .err →
      readCell row drag_keys ≠ .err → readCell row lift_keys = .err →
      processRow acc row =
        { acc with
          cd_values := pushVal acc.cd_values (readCell row cd_keys),
          cl_values := pushVal acc.cl_values (readCell row cl_keys),
          drag_values := pushVal acc.drag_values (readCell row drag_keys) }) ∧
    (∀ (pre : List Row) (row : Row) (post : List Row),
      collect_values (pre ++ row :: post) =
        List.foldl processRow (processRow (collect_values pre) row) post) := by
  refine ⟨fun rows => ?_, fun rows h => ?_, fun acc row h1 => ?_,
    fun acc row h1 h2 => ?_, fun acc row h1 h2 h3 => ?_,
    fun acc row h1 h2 h3 h4 => ?_, fun pre row post => ?_⟩
  · unfold collect_values
    rw [foldl_processRow_eq rows _]
    simp
  · unfold collect_values
    rw [foldl_processRow_ok rows _ h]
    simp
  · simp [processRow, h1]
  · cases hcd : readCell row cd_keys <;>
      simp_all [processRow, pushVal]
  · cases hcd : readCell row cd_keys <;> cases hcl : readCell row cl_keys <;>
      simp_all [processRow, pushVal]
  · cases hcd : readCell row cd_keys <;> cases hcl : readCell row cl_keys <;>
      cases hdr : readCell row drag_keys <;>
      simp_all [processRow, pushVal]
  · unfold collect_values
    rw [List.foldl_append, List.foldl_cons]

/-- C8 witness: on the counterexample rows, the middle row (bad drag cell,
numeric lift cell) keeps nothing beyond the quantities before drag, and the
fold still processes the following row. -/
theorem c8_row_exclusion_witness :
    processRow ⟨[], [], [80], [10]⟩ (c8_rows.get ⟨1, by simp [c8_rows]⟩) =
      { (⟨[], [], [80], [10]⟩ : Collected) with
        cd_values := pushVal [] (readCell (c8_rows.get ⟨1, by simp [c8_rows]⟩) cd_keys),
        cl_values := pushVal [] (readCell (c8_rows.get ⟨1, by simp [c8_rows]⟩) cl_keys) } ∧
    collect_values ([c8_rows.get ⟨0, by simp [c8_rows]⟩] ++
        c8_rows.get ⟨1, by simp [c8_rows]⟩ :: [c8_rows.get ⟨2, by simp [c8_rows]⟩]) =
      List.foldl processRow
        (processRow (collect_values [c8_rows.get ⟨0, by simp [c8_rows]⟩])
          (c8_rows.get ⟨1, by simp [c8_rows]⟩))
        [c8_rows.get ⟨2, by simp [c8_rows]⟩] :=
  ⟨c8_row_exclusion.2.2.2.2.1 ⟨[], [], [80], [10]⟩ (c8_rows.get ⟨1, by simp [c8_rows]⟩)
      (by simp [c8_rows, readCell, extract_value, cd_keys, dragCol, liftCol, List.lookup])
      (by simp [c8_rows, readCell, extract_value, cl_keys, dragCol, liftCol, List.lookup])
      (by simp [c8_rows, readCell, extract_value, drag_keys, dragCol, liftCol, List.lookup]),
   c8_row_exclusion.2.2.2.2.2.2 [c8_rows.get ⟨0, by simp [c8_rows]⟩]
      (c8_rows.get ⟨1, by simp [c8_rows]⟩) [c8_rows.get ⟨2, by simp [c8_rows]⟩]⟩

/-- C9: for a record created by Discovery and then processed once by the
Matcher, `has_results = false` implies every result/coefficient field
(simulator, convergence, forces, coefficients, averages, standard deviations)
is unset, and `has_results = true` implies `simulator` and `converged` are
both set. -/
theorem c9_record_invariant (car_groups : List (String × String))
    (geometry_folder : String) (md : Metadata) (all_folders : List String)
    (extractor : String → String → Option ResultsMap) (r : SimulationRecord)
    (hr : r = ResultsMatcher.match_and_extract all_folders extractor
      (create_simulation_record car_groups geometry_folder md)) :
    (r.has_results = false →
      r.simulator = none ∧ r.converged = none ∧
      r.cd = none ∧ r.cl = none ∧ r.cd_front = none ∧ r.cl_front = none ∧
      r.cl_rear = none ∧ r.cs = none ∧ r.drag_n = none ∧ r.lift_n = none ∧
      r.avg_cd = none ∧ r.avg_cl = none ∧ r.avg_drag_n = none ∧
      r.avg_lift_n = none ∧ r.std_cd = none ∧ r.std_cl = none ∧
      r.std_drag_n = none ∧ r.std_lift_n = none) ∧
    (r.has_results = true → r.simulator.isSome = true ∧ r.converged.isSome = true) := by
  subst hr
  unfold ResultsMatcher.match_and_extract
  rcases hfind : ResultsMatcher.find_results_folder
      (create_simulation_record car_groups geometry_folder md).unique_id all_folders
    with ⟨_ | folder, sim⟩
  · simp [create_simulation_record]
  · by_cases hemp : folder = ""
    · simp [hemp, create_simulation_record]
    · rcases hext : extractor folder sim with _ | res
      · simp [hemp, hext, create_simulation_record]
      · simp [hemp, hext, SimulationRecord.set_results_from]

/-- C9 witness: an empty results listing leaves a freshly discovered record
with `has_results = false` and every result field unset. -/
theorem c9_record_invariant_witness :
    (ResultsMatcher.match_and_extract [] (fun _ _ => none)
        (create_simulation_record [] "geoms/a/"
          ⟨"a", "CarA", "CarA_baseline", none, 0, []⟩)).simulator = none ∧
    (ResultsMatcher.match_and_extract [] (fun _ _ => none)
        (create_simulation_record [] "geoms/a/"
          ⟨"a", "CarA", "CarA_baseline", none, 0, []⟩)).converged = none ∧
    (ResultsMatcher.match_and_extract [] (fun _ _ => none)
        (create_simulation_record [] "geoms/a/"
          ⟨"a", "CarA", "CarA_baseline", none, 0, []⟩)).cd = none ∧
    (ResultsMatcher.match_and_extract [] (fun _ _ => none)
        (create_simulation_record [] "geoms/a/"
          ⟨"a", "CarA", "CarA_baseline", none, 0, []⟩)).cl = none ∧
    (ResultsMatcher.match_and_extract [] (fun _ _ => none)
        (create_simulation_record [] "geoms/a/"
          ⟨"a", "CarA", "CarA_baseline", none, 0, []⟩)).cd_front = none ∧
    (ResultsMatcher.match_and_extract [] (fun _ _ => none)
        (create_simulation_record [] "geoms/a/"
          ⟨"a", "CarA", "CarA_baseline", none, 0, []⟩)).cl_front = none ∧
    (ResultsMatcher.match_and_extract [] (fun _ _ => none)
        (create_simulation_record [] "geoms/a/"
          ⟨"a", "CarA", "CarA_baseline", none, 0, []⟩)).cl_rear = none ∧
    (ResultsMatcher.match_and_extract [] (fun _ _ => none)
        (create_simulation_record [] "geoms/a/"
          ⟨"a", "CarA", "CarA_baseline", none, 0, []⟩)).cs = none ∧
    (ResultsMatcher.match_and_extract [] (fun _ _ => none)
        (create_simulation_record [] "geoms/a/"
          ⟨"a", "CarA", "CarA_baseline", none, 0, []⟩)).drag_n = none ∧
    (ResultsMatcher.match_and_extract [] (fun _ _ => none)
        (create_simulation_record [] "geoms/a/"
          ⟨"a", "CarA", "CarA_baseline", none, 0, []⟩)).lift_n = none ∧
    (ResultsMatcher.match_and_extract [] (fun _ _ => none)
        (create_simulation_record [] "geoms/a/"
          ⟨"a", "CarA", "CarA_baseline", none, 0, []⟩)).avg_cd = none ∧
    (ResultsMatcher.match_and_extract [] (fun _ _ => none)
        (create_simulation_record [] "geoms/a/"
          ⟨"a", "CarA", "CarA_baseline", none, 0, []⟩)).avg_cl = none ∧
    (ResultsMatcher.match_and_extract [] (fun _ _ => none)
        (create_simulation_record [] "geoms/a/"
          ⟨"a", "CarA", "CarA_baseline", none, 0, []⟩)).avg_drag_n = none ∧
    (ResultsMatcher.match_and_extract [] (fun _ _ => none)
        (create_simulation_record [] "geoms/a/"
          ⟨"a", "CarA", "CarA_baseline", none, 0, []⟩)).avg_lift_n = none ∧
    (ResultsMatcher.match_and_extract [] (fun _ _ => none)
        (create_simulation_record [] "geoms/a/"
          ⟨"a", "CarA", "CarA_baseline", none, 0, []⟩)).std_cd = none ∧
    (ResultsMatcher.match_and_extract [] (fun _ _ => none)
        (create_simulation_record [] "geoms/a/"
          ⟨"a", "CarA", "CarA_baseline", none, 0, []⟩)).std_cl = none ∧
    (ResultsMatcher.match_and_extract [] (fun _ _ => none)
        (create_simulation_record [] "geoms/a/"
          ⟨"a", "CarA", "CarA_baseline", none, 0, []⟩)).std_drag_n = none ∧
    (ResultsMatcher.match_and_extract [] (fun _ _ => none)
        (create_simulation_record [] "geoms/a/"
          ⟨"a", "CarA", "CarA_baseline", none, 0, []⟩)).std_lift_n = none :=
  (c9_record_invariant [] "geoms/a/" ⟨"a", "CarA", "CarA_baseline", none, 0, []⟩
    [] (fun _ _ => none) _ rfl).1 rfl

/-- Updating the entry at one key leaves lookups at other keys unchanged. -/
theorem lookup_map_update (a : AttrMap) (k kq : String) (v : PyVal) (h : k ≠ kq) :
    List.lookup k (a.map (fun kv => if kv.1 = kq then (kv.1, v) else kv)) =
      List.lookup k a := by
  induction a with
  | nil => rfl
  | cons kv t ih =>
    simp only [List.map_cons]
    by_cases hk1 : kv.1 = kq
    · rw [if_pos hk1]
      have hb : (k == kv.1) = false := by
        rw [hk1]
        exact beq_eq_false_iff_ne.mpr h
      simp [List.lookup, hb, ih]
    · rw [if_neg hk1]
      cases hbk : (k == kv.1) <;> simp [List.lookup, hbk, ih]

/-- Appending an entry at a different key leaves a lookup unchanged. -/
theorem lookup_append_single (a : AttrMap) (k kq : String) (v : PyVal)
    (h : k ≠ kq) :
    List.lookup k (a ++ [(kq, v)]) = List.lookup k a := by
  induction a with
  | nil => simp [List.lookup, beq_eq_false_iff_ne.mpr h]
  | cons kv t ih => cases hbk : (k == kv.1) <;> simp [List.lookup, hbk, ih]

/-- `setattr` at one key leaves lookups at other keys unchanged. -/
theorem lookup_setattr_ne (a : AttrMap) (k kq : String) (v : PyVal)
    (h : k ≠ kq) :
    List.lookup k (setattr a kq v) = List.lookup k a := by
  unfold setattr
  by_cases hh : hasattr a kq
  · rw [if_pos hh]
    exact lookup_map_update a k kq v h
  · rw [if_neg hh]
    exact lookup_append_single a k kq v h

/-- In-place update preserves the attribute-name sequence. -/
theorem map_fst_update (a : AttrMap) (kq : String) (v : PyVal) :
    (a.map (fun kv => if kv.1 = kq then (kv.1, v) else kv)).map Prod.fst =
      a.map Prod.fst := by
  induction a with
  | nil => rfl
  | cons kv t ih => by_cases hk1 : kv.1 = kq <;> simp [hk1, ih]

/-- `setattr` on an existing attribute preserves the attribute-name
sequence. -/
theorem map_fst_setattr (a : AttrMap) (kq : String) (v : PyVal)
    (h : hasattr a kq = true) :
    (setattr a kq v).map Prod.fst = a.map Prod.fst := by
  unfold setattr
  rw [if_pos h]
  exact map_fst_update a kq v

/-- The guarded keyword fold preserves the attribute-name sequence. -/
theorem map_fst_kwargs_fold (kwargs : List (String × PyVal)) (a : AttrMap) :
    (kwargs.foldl
        (fun a kv => if hasattr a kv.1 then setattr a kv.1 kv.2 else a) a).map
        Prod.fst = a.map Prod.fst := by
  induction kwargs generalizing a with
  | nil => rfl
  | cons kv t ih =>
    rw [List.foldl_cons]
    by_cases h : hasattr a kv.1
    · rw [if_pos h, ih, map_fst_setattr a kv.1 kv.2 h]
    · rw [if_neg h, ih]

/-- The guarded keyword fold never creates an attribute: a name absent before
stays absent. -/
theorem lookup_none_kwargs_fold (kwargs : List (String × PyVal)) (a : AttrMap)
    (k : String) (h : List.lookup k a = none) :
    List.lookup k
      (kwargs.foldl
        (fun a kv => if hasattr a kv.1 then setattr a kv.1 kv.2 else a) a) = none := by
  induction kwargs generalizing a with
  | nil => exact h
  | cons kv t ih =>
    rw [List.foldl_cons]
    by_cases hk : kv.1 = k
    · have hmiss : hasattr a kv.1 = false := by
        unfold hasattr
        rw [hk, h]
        rfl
      rw [hmiss]
      simp only [Bool.false_eq_true, if_false]
      exact ih a h
    · by_cases hhas : hasattr a kv.1
      · rw [if_pos hhas]
        exact ih _ ((lookup_setattr_ne a k kv.1 kv.2 (Ne.symm hk)).trans h)
      · rw [if_neg hhas]
        exact ih a h

/-- The guarded keyword fold leaves attributes not named in the keyword list
unchanged. -/
theorem lookup_kwargs_fold_not_mem (kwargs : List (String × PyVal)) (a : AttrMap)
    (k : String) (h : k ∉ kwargs.map Prod.fst) :
    List.lookup k
      (kwargs.foldl
        (fun a kv => if hasattr a kv.1 then setattr a kv.1 kv.2 else a) a) =
      List.lookup k a := by
  induction kwargs generalizing a with
  | nil => rfl
  | cons kv t ih =>
    rw [List.map_cons] at h
    have hk : k ≠ kv.1 := List.ne_of_not_mem_cons h
    have ht : k ∉ t.map Prod.fst := List.not_mem_of_not_mem_cons h
    rw [List.foldl_cons]
    by_cases hhas : hasattr a kv.1
    · rw [if_pos hhas, ih _ ht]
      exact lookup_setattr_ne a k kv.1 kv.2 hk
    · rw [if_neg hhas]
      exact ih a ht

/-- C10: `set_results` with arbitrary keyword arguments never creates a new
attribute (an unknown key is silently ignored, with no error — the model is a
total function), and every attribute not named in the arguments other than
`has_results`, `converged` and `simulator` keeps its value. -/
theorem c10_set_results_frame (r : SimulationRecord) (conv sim : PyVal)
    (kwargs : List (String × PyVal)) (k : String) :
    ((set_results r.attrs conv sim kwargs).map Prod.fst = r.attrs.map Prod.fst) ∧
    (List.lookup k r.attrs = none →
      List.lookup k (set_results r.attrs conv sim kwargs) = none) ∧
    (k ∉ kwargs.map Prod.fst → k ≠ "has_results" → k ≠ "converged" →
      k ≠ "simulator" →
      List.lookup k (set_results r.attrs conv sim kwargs) = List.lookup k r.attrs) := by
  have hhr : List.lookup "has_results" r.attrs = some (.pyBool r.has_results) := rfl
  have hcv : List.lookup "converged" r.attrs = some (optBool r.converged) := rfl
  have hsm : List.lookup "simulator" r.attrs = some (optStr r.simulator) := rfl
  have h1 : hasattr r.attrs "has_results" = true := by
    unfold hasattr; rw [hhr]; rfl
  have hcv1 : List.lookup "converged" (setattr r.attrs "has_results" (.pyBool true)) =
      some (optBool r.converged) := by
    rw [lookup_setattr_ne _ _ _ _ (by decide)]; exact hcv
  have h2 : hasattr (setattr r.attrs "has_results" (.pyBool true)) "converged" = true := by
    unfold hasattr; rw [hcv1]; rfl
  have hsm1 : List.lookup "simulator"
      (setattr (setattr r.attrs "has_results" (.pyBool true)) "converged" conv) =
      some (optStr r.simulator) := by
    rw [lookup_setattr_ne _ _ _ _ (by decide), lookup_setattr_ne _ _ _ _ (by decide)]
    exact hsm
  have h3 : hasattr
      (setattr (setattr r.attrs "has_results" (.pyBool true)) "converged" conv)
      "simulator" = true := by
    unfold hasattr; rw [hsm1]; rfl
  unfold set_results
  refine ⟨?_, fun hnone => ?_, fun hmem hhr2 hcv2 hsm2 => ?_⟩
  · rw [map_fst_kwargs_fold, map_fst_setattr _ _ _ h3, map_fst_setattr _ _ _ h2,
      map_fst_setattr _ _ _ h1]
  · have khr : k ≠ "has_results" := fun he => by rw [he, hhr] at hnone; cases hnone
    have kcv : k ≠ "converged" := fun he => by rw [he, hcv] at hnone; cases hnone
    have ksm : k ≠ "simulator" := fun he => by rw [he, hsm] at hnone; cases hnone
    refine lookup_none_kwargs_fold _ _ _ ?_
    rw [lookup_setattr_ne _ _ _ _ ksm, lookup_setattr_ne _ _ _ _ kcv,
      lookup_setattr_ne _ _ _ _ khr]
    exact hnone
  · rw [lookup_kwargs_fold_not_mem _ _ _ hmem,
      lookup_setattr_ne _ _ _ _ hsm2, lookup_setattr_ne _ _ _ _ hcv2,
      lookup_setattr_ne _ _ _ _ hhr2]

/-- C10 witness: on a concrete record, a keyword argument with an unknown key
is ignored (the key stays absent, the attribute-name sequence is unchanged)
and an attribute not named in the arguments keeps its value. -/
theorem c10_set_results_frame_witness :
    ((set_results (SimulationRecord.attrs
        { car_name := some "Test", car_group := "GroupA", geometry_name := "g1",
          unique_id := "g1", baseline_id := some "b1" })
        (.pyBool true) (.pyStr "JakubNet")
        [("bogus_key", .pyNum 1), ("cd", .pyNum 2)]).map Prod.fst =
      (SimulationRecord.attrs
        { car_name := some "Test", car_group := "GroupA", geometry_name := "g1",
          unique_id := "g1", baseline_id := some "b1" }).map Prod.fst) ∧
    List.lookup "bogus_key"
      (set_results (SimulationRecord.attrs
        { car_name := some "Test", car_group := "GroupA", geometry_name := "g1",
          unique_id := "g1", baseline_id := some "b1" })
        (.pyBool true) (.pyStr "JakubNet")
        [("bogus_key", .pyNum 1), ("cd", .pyNum 2)]) = none ∧
    List.lookup "car_group"
      (set_results (SimulationRecord.attrs
        { car_name := some "Test", car_group := "GroupA", geometry_name := "g1",
          unique_id := "g1", baseline_id := some "b1" })
        (.pyBool true) (.pyStr "JakubNet")
        [("bogus_key", .pyNum 1), ("cd", .pyNum 2)]) =
      List.lookup "car_group" (SimulationRecord.attrs
        { car_name := some "Test", car_group := "GroupA", geometry_name := "g1",
          unique_id := "g1", baseline_id := some "b1" }) :=
  ⟨(c10_set_results_frame
      { car_name := some "Test", car_group := "GroupA", geometry_name := "g1",
        unique_id := "g1", baseline_id := some "b1" }
      (.pyBool true) (.pyStr "JakubNet")
      [("bogus_key", .pyNum 1), ("cd", .pyNum 2)] "bogus_key").1,
   (c10_set_results_frame
      { car_name := some "Test", car_group := "GroupA", geometry_name := "g1",
        unique_id := "g1", baseline_id := some "b1" }
      (.pyBool true) (.pyStr "JakubNet")
      [("bogus_key", .pyNum 1), ("cd", .pyNum 2)] "bogus_key").2.1 rfl,
   (c10_set_results_frame
      { car_name := some "Test", car_group := "GroupA", geometry_name := "g1",
        unique_id := "g1", baseline_id := some "b1" }
      (.pyBool true) (.pyStr "JakubNet")
      [("bogus_key", .pyNum 1), ("cd", .pyNum 2)] "car_group").2.2
    (by decide) (by decide) (by decide) (by decide)⟩

end LpmValidation
